import Mathlib

/-!
Verification of the attack-live-map enrichment/sync pipeline.

Shallow embedding of the two source modules the claims are about:

* `ec2내부파일/parser.py` — the session classifier (`analyze_session`,
  `get_geoip_data`, and the per-session body of `parse_cowrie_logs`).
* `attack-map-main/web/sync_daemon.py` — the geo resolver
  (`_get_geoip_reader`, `_get_location_for_ip` with its `lru_cache`,
  `_fill_location_info`) and one iteration of the sync loop (`_sync_once`,
  with `_read_s3_json` abstracted over the remote outcome).

Python dicts holding JSON data are modelled as structures whose fields are
`Option`-valued (`none` = key absent or JSON null, matching `dict.get`).
Coordinates are opaque numeric values; no arithmetic is performed on them
in the source, so they are represented by `Int`.  File and network I/O is
abstracted: the remote fetch outcome and the state of the geo database
file are explicit parameters, and the locally published snapshot is the
explicit result of a sync iteration.  The classifier's `uuid` field is
nondeterministic and referenced by no claim; it is omitted from `Event`.
-/

/-! ## String helpers (Python `str.lower`, `in`, and `<` on strings) -/

/-- Python `str.lower()` restricted to what `Char.toLower` covers (ASCII,
which is all the signature matching in the source uses). -/
def strLower (s : String) : String := ⟨s.data.map Char.toLower⟩

/-- `needle` occurs as a contiguous substring of the character list. -/
def listHasSubstr (needle : List Char) : List Char → Bool
  | [] => needle.isEmpty
  | h :: t => needle.isPrefixOf (h :: t) || listHasSubstr needle t

/-- Python `needle in hay` for strings: contiguous-substring test. -/
def strContains (hay needle : String) : Bool := listHasSubstr needle.data hay.data

/-- Code-point lexicographic `≤` on character lists, as Python compares
strings. -/
def charListLe : List Char → List Char → Bool
  | [], _ => true
  | _ :: _, [] => false
  | a :: as, b :: bs =>
    if a.toNat < b.toNat then true
    else if b.toNat < a.toNat then false
    else charListLe as bs

/-- Python string `≤` (code-point lexicographic). -/
def strLe (a b : String) : Bool := charListLe a.data b.data

/-! ## Data model of `parser.py` -/

/-- One raw Cowrie log line, restricted to the keys the source reads.
`none` models an absent key (Python `dict.get` returning `None`). -/
structure LogEntry where
  eventid : Option String
  timestamp : Option String
  input : Option String
  src_ip : Option String
  dst_port : Option Int
  protocol : Option String
deriving Repr, DecidableEq

/-- The classifier's output record (`event` dict built in
`parse_cowrie_logs`); the nondeterministic `uuid` field is omitted. -/
structure Event where
  ts : Option String
  src_ip : Option String
  lat : Option Int
  lon : Option Int
  country : Option String
  port : Option Int
  proto : Option String
  label : String
  severity : Nat
deriving Repr, DecidableEq

/-- Result shape of `get_geoip_data`. -/
structure GeoData where
  lat : Option Int
  lon : Option Int
  country : Option String
deriving Repr, DecidableEq

/-- `parser.get_geoip_data`: the placeholder always returns
`{"lat": None, "lon": None, "country": "N/A"}`. -/
def get_geoip_data (_ip : Option String) : GeoData :=
  { lat := none, lon := none, country := some "N/A" }

/-! ## `parser.analyze_session`

The single Python pass that sets `has_successful_login`,
`has_failed_login` and collects `commands` is split into three
order-preserving scans; the `elif` chain of the loop body is exclusive on
`eventid`, so the scans commute with the original single pass. -/

/-- The lowered command inputs of a session, in log order
(`log.get("input", "").lower()` for each `cowrie.command.input` entry). -/
def extractCommands (logs : List LogEntry) : List String :=
  logs.filterMap fun l =>
    if l.eventid = some "cowrie.command.input" then some (strLower (l.input.getD ""))
    else none

/-- Whether some entry has `eventid == "cowrie.login.success"`. -/
def hasSuccessfulLogin (logs : List LogEntry) : Bool :=
  logs.any fun l => l.eventid = some "cowrie.login.success"

/-- Whether some entry has `eventid == "cowrie.login.failed"`. -/
def hasFailedLogin (logs : List LogEntry) : Bool :=
  logs.any fun l => l.eventid = some "cowrie.login.failed"

/-- The command-scanning loop inside the `has_successful_login` branch of
`analyze_session`: first command matching a signature returns immediately,
checking `"miner"`, then `"/ip cloud print"`, then
`"telegramdesktop"`/`"smsd"` within each command. -/
def findOverride : List String → Option (String × Nat)
  | [] => none
  | cmd :: rest =>
    if strContains cmd "miner" then some ("cryptominer-check", 4)
    else if strContains cmd "/ip cloud print" then some ("mikrotik-recon", 3)
    else if strContains cmd "telegramdesktop" || strContains cmd "smsd" then
      some ("info-gathering", 3)
    else findOverride rest

/-- `parser.analyze_session`: label and severity for one session. -/
def analyze_session (logs : List LogEntry) : String × Nat :=
  if hasSuccessfulLogin logs then
    match findOverride (extractCommands logs) with
    | some r => r
    | none => ("reconnaissance", 2)
  else if hasFailedLogin logs then ("brute-force", 2)
  else ("scan", 1)

/-! ## Per-session body of `parser.parse_cowrie_logs` -/

/-- Sort key: `x.get("timestamp", "")`. -/
def tsKey (l : LogEntry) : String := l.timestamp.getD ""

/-- Insert into an already sorted list, before the first entry whose key
is strictly greater (ties keep the earlier element first). -/
def insertByTs (a : LogEntry) : List LogEntry → List LogEntry
  | [] => [a]
  | b :: t => if strLe (tsKey a) (tsKey b) then a :: b :: t else b :: insertByTs a t

/-- `logs.sort(key=lambda x: x.get("timestamp", ""))`: Python's sort is
stable, and a stable sort's output is uniquely determined by the key
order, so this structural stable insertion sort computes it. -/
def sortLogs : List LogEntry → List LogEntry
  | [] => []
  | a :: t => insertByTs a (sortLogs t)

/-- The per-session body of `parse_cowrie_logs` (steps 2–4): sort the
session's logs, discard the session unless the first sorted entry is a
connect event, classify, and build the output event.  File reading,
session grouping and file writing are I/O around this core. -/
def parse_cowrie_session (logs : List LogEntry) : Option Event :=
  match sortLogs logs with
  | [] => none
  | first :: rest =>
    if first.eventid ≠ some "cowrie.session.connect" then none
    else
      let ls := analyze_session (first :: rest)
      let g := get_geoip_data first.src_ip
      some
        { ts := first.timestamp
          src_ip := first.src_ip
          lat := g.lat
          lon := g.lon
          country := g.country
          port := first.dst_port
          proto := if first.protocol = some "ssh" then some "tcp" else first.protocol
          label := ls.1
          severity := ls.2 }

/-! ## Data model of `sync_daemon.py` -/

/-- One record of the maxminddb reader (`reader.get(ip)` result dict),
restricted to the keys the source reads: `location.latitude`,
`location.longitude`, `country.names.en`.  A missing nested key is
`none`. -/
structure DbRecord where
  latitude : Option Int
  longitude : Option Int
  countryNameEn : Option String
deriving Repr, DecidableEq

/-- Outcome of one `reader.get(ip)` call: the call can raise (caught by
the `except Exception` in `_get_location_for_ip`), return a non-empty
match dict, or return `None`/an empty dict (both falsy under
`if match:`). -/
inductive LookupOutcome where
  | raises
  | found (m : DbRecord)
  | missing
deriving Repr

/-- An opened maxminddb reader, abstracted to its lookup behaviour. -/
def DbReader := String → LookupOutcome

/-- State of the geo database file on disk, as `_get_geoip_reader`
distinguishes it: path unset or file absent (`not _GEOIP_DB_PATH or not
Path(...).exists()`), file present but `maxminddb.open_database` raising
`InvalidDatabaseError`, or a file that opens into a reader. -/
inductive DbFile where
  | absent
  | malformed
  | valid (rd : DbReader)

/-- Value returned by `_get_location_for_ip` when it returns a dict:
either all three keys `lat`/`lon`/`country` (the `lat`/`lon` values may
themselves be `None`), or only `country` (the `{'country': 'Unknown'}`
returns). `event.update` only touches the keys present. -/
inductive LocResult where
  | full (lat lon : Option Int) (country : String)
  | countryOnly (country : String)
deriving Repr, DecidableEq

/-- Module state of the resolver: the `_geoip_reader` global, the
`lru_cache` of `_get_location_for_ip` (most-recent-first association
list), plus two instrumentation counters — `probes` counts attempts to
open/stat the database file (one per execution of the `if not
_GEOIP_DB_PATH ...`/`open_database` block) and `queries` counts
`reader.get` calls. -/
structure GeoState where
  reader : Option DbReader
  cache : List (String × Option LocResult)
  probes : Nat
  queries : Nat

/-- Fresh module state at import time. -/
def initGeoState : GeoState := { reader := none, cache := [], probes := 0, queries := 0 }

/-- `maxsize` of the `lru_cache` on `_get_location_for_ip`. -/
def CACHE_MAX : Nat := 4096

/-- `_get_geoip_reader`: lazy open of the database.  On success the
reader is stored in the global; on a missing or malformed file it prints
and returns `None` *without* storing anything, so the next call probes
again.  The double-checked locking collapses to this in the sequential
model. -/
def get_geoip_reader (env : DbFile) (s : GeoState) : Option DbReader × GeoState :=
  match s.reader with
  | some r => (some r, s)
  | none =>
    match env with
    | .absent => (none, { s with probes := s.probes + 1 })
    | .malformed => (none, { s with probes := s.probes + 1 })
    | .valid rd => (some rd, { s with reader := some rd, probes := s.probes + 1 })

/-- Body of `_get_location_for_ip` after the reader is acquired (the part
from `if not reader or not ip` on).  Second component: whether a
`reader.get` query was performed. -/
def readerBody (reader : Option DbReader) (ip : String) : Option LocResult × Bool :=
  match reader with
  | none => (none, false)
  | some rd =>
    if ip = "" then (none, false)
    else
      match rd ip with
      | .raises => (some (.countryOnly "Unknown"), true)
      | .found m =>
        (some (.full m.latitude m.longitude (m.countryNameEn.getD "Unknown")), true)
      | .missing => (some (.countryOnly "Unknown"), true)

/-- The wrapped (uncached) `_get_location_for_ip`: acquire the reader,
then run the lookup body; bookkeeping of the query counter. -/
def uncachedLookup (env : DbFile) (s : GeoState) (ip : String) :
    Option LocResult × GeoState :=
  let pr := get_geoip_reader env s
  let rb := readerBody pr.1 ip
  (rb.1, { pr.2 with queries := pr.2.queries + (if rb.2 then 1 else 0) })

/-- Cache lookup (`lru_cache` hit test). -/
def cacheGet (c : List (String × Option LocResult)) (ip : String) :
    Option (Option LocResult) :=
  (c.find? fun p => p.1 == ip).map fun p => p.2

/-- `_get_location_for_ip` with its `@lru_cache(maxsize=4096)`: a hit
returns the stored value and moves the key to most-recent; a miss runs
the wrapped function, stores the result at most-recent and drops the
least-recently-used entry when over capacity. -/
def get_location_for_ip (env : DbFile) (s : GeoState) (ip : String) :
    Option LocResult × GeoState :=
  match cacheGet s.cache ip with
  | some v =>
    (v, { s with cache := (ip, v) :: s.cache.filter fun p => !(p.1 == ip) })
  | none =>
    ((uncachedLookup env s ip).1,
      { (uncachedLookup env s ip).2 with
        cache :=
          ((ip, (uncachedLookup env s ip).1) ::
            (uncachedLookup env s ip).2.cache).take CACHE_MAX })

/-! ## Items of the remote dataset and `_sync_once` -/

/-- One event-shaped record of the remote dataset, restricted to the keys
`_sync_once`/`_fill_location_info` read or write; `rest` carries all
other key/value pairs untouched. -/
structure Item where
  src_ip : Option String
  lat : Option Int
  lon : Option Int
  country : Option String
  rest : List (String × String)
deriving Repr, DecidableEq

/-- Python truthiness of `item.get('src_ip')`: present and non-empty. -/
def truthyStr : Option String → Bool
  | none => false
  | some s => !(s == "")

/-- The enrichment predicate used at dedup time and at fill time:
`item.get('src_ip') and (item.get('lat') is None or item.get('country')
in ['N/A', None])`. -/
def needsEnrichment (it : Item) : Bool :=
  truthyStr it.src_ip &&
    (it.lat.isNone || it.country == some "N/A" || it.country.isNone)

/-- Application of `event.update(location_data)` /
`event['country'] = 'Unknown'` to an item, given what
`_get_location_for_ip` returned. -/
def fillApply (it : Item) : Option LocResult → Item
  | some (.full lat lon c) => { it with lat := lat, lon := lon, country := some c }
  | some (.countryOnly c) => { it with country := some c }
  | none => { it with country := some "Unknown" }

/-- `_fill_location_info`: resolve the item's source IP (when truthy) and
update the item in place. -/
def fill_location_info (env : DbFile) (s : GeoState) (it : Item) : Item × GeoState :=
  if truthyStr it.src_ip then
    (fillApply it (get_location_for_ip env s (it.src_ip.getD "")).1,
      (get_location_for_ip env s (it.src_ip.getD "")).2)
  else (it, s)

/-- The unique source IPs of records needing enrichment (the set
comprehension of `_sync_once` step 1; a Python set's iteration order is
unspecified, first-occurrence order is used here). -/
def uniqueNeedyIps (items : List Item) : List String :=
  (items.filterMap fun it => if needsEnrichment it then it.src_ip else none).dedup

/-- Step 2 of `_sync_once`: resolve each unique IP to warm the cache,
discarding the results. -/
def warmPass (env : DbFile) (ips : List String) (s : GeoState) : GeoState :=
  ips.foldl (fun st ip => (get_location_for_ip env st ip).2) s

/-- Step 3 of `_sync_once`: re-scan the list, fill every record matching
the enrichment predicate, and count the filled records. -/
def fillPass (env : DbFile) : List Item → GeoState → List Item × GeoState × Nat
  | [], s => ([], s, 0)
  | it :: rest, s =>
    if needsEnrichment it then
      ((fill_location_info env s it).1 ::
          (fillPass env rest (fill_location_info env s it).2).1,
        (fillPass env rest (fill_location_info env s it).2).2.1,
        (fillPass env rest (fill_location_info env s it).2).2.2 + 1)
    else
      (it :: (fillPass env rest s).1, (fillPass env rest s).2.1,
        (fillPass env rest s).2.2)

/-- The parsed JSON value a successful S3 body read can produce, as
`_sync_once` discriminates it: a JSON array of records, a single JSON
object, JSON `null` (which `json.loads` parses to `None`), or any other
JSON value (string, number, boolean). -/
inductive JsonValue where
  | arr (items : List Item)
  | obj (item : Item)
  | null
  | other

/-- Outcome of the S3 fetch attempt inside `_read_s3_json`: one of the
three caught exception classes, or a body that parses to a value. -/
inductive S3Outcome where
  | clientError
  | jsonDecodeError
  | otherError
  | ok (v : JsonValue)

/-- `_read_s3_json`: every caught exception is logged and turns into
`None`; a body parsing to JSON `null` also yields `None` (Python `None`
is the parsed value itself). -/
def read_s3_json : S3Outcome → Option JsonValue
  | .clientError => none
  | .jsonDecodeError => none
  | .otherError => none
  | .ok .null => none
  | .ok v => some v

/-- `s3_data if isinstance(s3_data, list) else ([s3_data] if
isinstance(s3_data, dict) else [])`. -/
def coerceToList : JsonValue → List Item
  | .arr l => l
  | .obj d => [d]
  | _ => []

/-- One iteration of the sync loop, `_sync_once`: fetch, early-return on
failure or an empty coerced list, warm the cache on the unique needy IPs,
fill the records, and atomically publish the full list.  `snapshot` is
the current content of the local snapshot file; the first component of
the result is its content after the iteration, the last is the returned
`filled_count`. -/
def sync_once (env : DbFile) (outcome : S3Outcome) (s : GeoState)
    (snapshot : List Item) : List Item × GeoState × Nat :=
  match read_s3_json outcome with
  | none => (snapshot, s, 0)
  | some v =>
    let s3_list := coerceToList v
    if s3_list.isEmpty then (snapshot, s, 0)
    else
      let s1 := warmPass env (uniqueNeedyIps s3_list) s
      let r := fillPass env s3_list s1
      (r.1, r.2.1, r.2.2)

/-! ## Derived predicates and concrete sample data -/

/-- Degraded resolver state: no reader loaded and every cached lookup
result is the `None` of a reader-less resolution. -/
def Degraded (s : GeoState) : Prop :=
  s.reader = none ∧ ∀ p ∈ s.cache, p.2 = (none : Option LocResult)

/-- What one fill pass does to a record when the resolver is degraded:
records matching the enrichment predicate get `country` set to
`"Unknown"`, all other records and all other fields are untouched. -/
def degradedFill (it : Item) : Item :=
  if needsEnrichment it then { it with country := some "Unknown" } else it

/-- Sample log line with a given event id and timestamp. -/
def mkLog (eid ts : String) : LogEntry :=
  { eventid := some eid, timestamp := some ts, input := none,
    src_ip := some "203.0.113.5", dst_port := some 2222, protocol := some "ssh" }

/-- Sample command-input log line. -/
def mkCmd (ts cmd : String) : LogEntry :=
  { eventid := some "cowrie.command.input", timestamp := some ts, input := some cmd,
    src_ip := some "203.0.113.5", dst_port := some 2222, protocol := some "ssh" }

/-- A session with a successful login, then a MikroTik-recon command,
then a miner command. -/
def reconThenMinerLogs : List LogEntry :=
  [mkLog "cowrie.login.success" "t1", mkCmd "t2" "/ip cloud print",
   mkCmd "t3" "wget Miner.sh"]

/-- A session with a successful login and a single miner command. -/
def minerOnlyLogs : List LogEntry :=
  [mkLog "cowrie.login.success" "t1", mkCmd "t2" "wget Miner.sh"]

/-- A bare connect-only session. -/
def scanLogs : List LogEntry := [mkLog "cowrie.session.connect" "t0"]

/-- The event the classifier emits for `scanLogs`. -/
def scanEvent : Event :=
  { ts := some "t0", src_ip := some "203.0.113.5", lat := none, lon := none,
    country := some "N/A", port := some 2222, proto := some "tcp",
    label := "scan", severity := 1 }

/-- A remote record lacking geographic data (`lat` null, placeholder
country). -/
def needyItem : Item :=
  { src_ip := some "203.0.113.5", lat := none, lon := none,
    country := some "N/A", rest := [("port", "22")] }

/-- A remote record lacking geographic data with no country key at all. -/
def coordlessItem : Item :=
  { src_ip := some "198.51.100.7", lat := none, lon := none,
    country := none, rest := [] }

/-- A geo database whose record for `198.51.100.7` carries a country name
but no coordinates (empty `location` dict). -/
def coordlessReader : DbReader := fun ip =>
  if ip == "198.51.100.7" then
    .found { latitude := none, longitude := none, countryNameEn := some "France" }
  else .missing

/-- A resolver state with one IP already cached (value `None`, as a
reader-less resolution stores). -/
def cachedState : GeoState :=
  { reader := none, cache := [("10.0.0.1", none)], probes := 5, queries := 0 }

/-- A session with a connect and two failed logins. -/
def bruteLogs : List LogEntry :=
  [mkLog "cowrie.session.connect" "t0", mkLog "cowrie.login.failed" "t1",
   mkLog "cowrie.login.failed" "t2"]

/-- A session whose chronologically-first entry is a failed login, not a
connect (the entries arrive out of order). -/
def nonConnectLogs : List LogEntry :=
  [mkLog "cowrie.session.connect" "t2", mkLog "cowrie.login.failed" "t1"]

/-! ## Lemmas about the classifier -/

/-- Every override signature carries severity at least 1. -/
theorem findOverride_pos (cmds : List String) (r : String × Nat)
    (h : findOverride cmds = some r) : 1 ≤ r.2 := by
  induction cmds with
  | nil => simp [findOverride] at h
  | cons c t ih =>
    unfold findOverride at h
    split at h
    · injection h with h2; subst h2; decide
    · split at h
      · injection h with h2; subst h2; decide
      · split at h
        · injection h with h2; subst h2; decide
        · exact ih h

/-- `analyze_session` never returns a severity below 1. -/
theorem analyze_session_sev (logs : List LogEntry) : 1 ≤ (analyze_session logs).2 := by
  unfold analyze_session
  split
  · cases hfo : findOverride (extractCommands logs) with
    | none => simp
    | some r => simpa using findOverride_pos _ r hfo
  · split <;> simp

/-- Commands matching none of the override signatures are skipped by the
command scan. -/
theorem findOverride_skip (pre rest : List String)
    (h : ∀ d ∈ pre, strContains d "miner" = false ∧
      strContains d "/ip cloud print" = false ∧
      strContains d "telegramdesktop" = false ∧ strContains d "smsd" = false) :
    findOverride (pre ++ rest) = findOverride rest := by
  induction pre with
  | nil => rfl
  | cons c t ih =>
    obtain ⟨h1, h2, h3, h4⟩ := h c (by simp)
    simp only [List.cons_append, findOverride, h1, h2, h3, h4]
    simp only [Bool.false_eq_true, if_false, Bool.or_self]
    exact ih (fun d hd => h d (List.mem_cons_of_mem c hd))

/-- `parse_cowrie_session` on a session whose sorted logs are empty. -/
theorem parse_cowrie_session_nil (logs : List LogEntry)
    (h : sortLogs logs = []) : parse_cowrie_session logs = none := by
  unfold parse_cowrie_session
  rw [h]

/-- `parse_cowrie_session` on a session whose sorted logs start with `a`:
the guard on the connect event, then the constructed event record. -/
theorem parse_cowrie_session_cons (logs : List LogEntry) (a : LogEntry)
    (t : List LogEntry) (h : sortLogs logs = a :: t) :
    parse_cowrie_session logs =
      if a.eventid ≠ some "cowrie.session.connect" then none
      else
        some { ts := a.timestamp, src_ip := a.src_ip, lat := none, lon := none,
               country := some "N/A", port := a.dst_port,
               proto := if a.protocol = some "ssh" then some "tcp" else a.protocol,
               label := (analyze_session (a :: t)).1,
               severity := (analyze_session (a :: t)).2 } := by
  unfold parse_cowrie_session
  rw [h]
  rfl

/-! ## Claim theorems: session classifier -/

/-- C7: for every session log list with no successful-login entry and at
least one failed-login entry, `analyze_session` returns label
`brute-force` with severity 2, irrespective of any command-input entries
present. -/
theorem brute_force_classification (logs : List LogEntry)
    (hs : hasSuccessfulLogin logs = false) (hf : hasFailedLogin logs = true) :
    analyze_session logs = ("brute-force", 2) := by
  simp [analyze_session, hs, hf]

/-- Witness for C7 on a concrete connect/failed/failed session. -/
theorem brute_force_classification_witness :
    hasSuccessfulLogin bruteLogs = false ∧ hasFailedLogin bruteLogs = true ∧
      analyze_session bruteLogs = ("brute-force", 2) :=
  ⟨by decide, by decide, brute_force_classification bruteLogs (by decide) (by decide)⟩

/-- C1 (counterexample): a session with a successful login and a
miner-containing command is *not* always labelled `cryptominer-check`:
when an earlier command matches another signature the scan returns it
first.  Here `/ip cloud print` precedes `wget Miner.sh`, so the session
is labelled `mikrotik-recon` with severity 3. -/
theorem cryptominer_preempted :
    hasSuccessfulLogin reconThenMinerLogs = true ∧
    (extractCommands reconThenMinerLogs).any (fun c => strContains c "miner") = true ∧
    analyze_session reconThenMinerLogs ≠ ("cryptominer-check", 4) ∧
    analyze_session reconThenMinerLogs = ("mikrotik-recon", 3) := by
  refine ⟨by decide, by decide, by decide, by decide⟩

/-- C1 (amended): with a successful login, if some command contains
`"miner"` and every command before it matches none of the override
signatures, `analyze_session` returns exactly `cryptominer-check` with
severity 4. -/
theorem cryptominer_first_match (logs : List LogEntry) (pre post : List String)
    (c : String) (hs : hasSuccessfulLogin logs = true)
    (hc : extractCommands logs = pre ++ c :: post)
    (hm : strContains c "miner" = true)
    (hpre : ∀ d ∈ pre, strContains d "miner" = false ∧
      strContains d "/ip cloud print" = false ∧
      strContains d "telegramdesktop" = false ∧ strContains d "smsd" = false) :
    analyze_session logs = ("cryptominer-check", 4) := by
  simp [analyze_session, hs, hc, findOverride_skip pre (c :: post) hpre, findOverride, hm]

/-- Witness for the amended C1 on a concrete login-then-miner session. -/
theorem cryptominer_first_match_witness :
    analyze_session minerOnlyLogs = ("cryptominer-check", 4) :=
  cryptominer_first_match minerOnlyLogs [] [] "wget miner.sh" (by decide) (by decide)
    (by decide) (by intro d hd; simp at hd)

/-- C6: every session whose chronologically-first entry (after the stable
sort by timestamp) is not a connect event is discarded: no Event is
emitted. -/
theorem non_connect_session_discarded (logs : List LogEntry) (first : LogEntry)
    (h1 : (sortLogs logs).head? = some first)
    (h2 : first.eventid ≠ some "cowrie.session.connect") :
    parse_cowrie_session logs = none := by
  cases hsl : sortLogs logs with
  | nil => exact parse_cowrie_session_nil logs hsl
  | cons a t =>
    rw [hsl] at h1
    simp only [List.head?_cons, Option.some.injEq] at h1
    subst h1
    rw [parse_cowrie_session_cons logs a t hsl, if_pos h2]

/-- Witness for C6: an out-of-order session whose earliest entry is a
failed login produces no event. -/
theorem non_connect_session_discarded_witness :
    (sortLogs nonConnectLogs).head? = some (mkLog "cowrie.login.failed" "t1") ∧
      parse_cowrie_session nonConnectLogs = none :=
  ⟨by decide,
   non_connect_session_discarded nonConnectLogs (mkLog "cowrie.login.failed" "t1")
     (by decide) (by decide)⟩

/-- C9: for every classified session, the emitted event's `proto` field is
`"tcp"` when the first sorted entry's protocol is `"ssh"`, and the first
entry's protocol unchanged otherwise. -/
theorem ssh_proto_rewrite (logs : List LogEntry) (first : LogEntry) (e : Event)
    (h1 : (sortLogs logs).head? = some first)
    (h2 : parse_cowrie_session logs = some e) :
    e.proto = if first.protocol = some "ssh" then some "tcp" else first.protocol := by
  cases hsl : sortLogs logs with
  | nil => rw [parse_cowrie_session_nil logs hsl] at h2; exact Option.noConfusion h2
  | cons a t =>
    rw [hsl] at h1
    simp only [List.head?_cons, Option.some.injEq] at h1
    subst h1
    rw [parse_cowrie_session_cons logs a t hsl] at h2
    by_cases hc : a.eventid ≠ some "cowrie.session.connect"
    · rw [if_pos hc] at h2; exact Option.noConfusion h2
    · rw [if_neg hc] at h2
      simp only [Option.some.injEq] at h2
      subst h2
      rfl

/-- Witness for C9: a connect-only SSH session yields `proto = "tcp"`. -/
theorem ssh_proto_rewrite_witness :
    scanEvent.proto =
      if (mkLog "cowrie.session.connect" "t0").protocol = some "ssh" then some "tcp"
      else (mkLog "cowrie.session.connect" "t0").protocol :=
  ssh_proto_rewrite scanLogs (mkLog "cowrie.session.connect" "t0") scanEvent
    (by decide) (by decide)

/-! ## Claim theorems: event invariant, fetch failure, empty fetch -/

/-- C4 (counterexample): an enriched record can be partially resolved.
With a geo database whose record for the IP has a country name but no
coordinates, the published record has `country` populated while `lat` and
`lon` are absent. -/
theorem country_only_enrichment :
    ((sync_once (.valid coordlessReader) (.ok (.arr [coordlessItem])) initGeoState
        []).1.map fun it => (it.lat, it.lon, it.country)) =
      [(none, none, some "France")] := by decide

/-- C4 (amended): every classifier-produced Event has severity ≥ 1, and
its geographic fields are always in the placeholder shape — `lat` and
`lon` absent with `country` populated as `"N/A"` (so the all-or-none
geographic invariant does not hold; enrichment can likewise populate
`country` alone). -/
theorem classifier_event_invariant (logs : List LogEntry) (e : Event)
    (h : parse_cowrie_session logs = some e) :
    1 ≤ e.severity ∧ e.lat = none ∧ e.lon = none ∧ e.country = some "N/A" := by
  cases hsl : sortLogs logs with
  | nil => rw [parse_cowrie_session_nil logs hsl] at h; exact Option.noConfusion h
  | cons a t =>
    rw [parse_cowrie_session_cons logs a t hsl] at h
    by_cases hc : a.eventid ≠ some "cowrie.session.connect"
    · rw [if_pos hc] at h; exact Option.noConfusion h
    · rw [if_neg hc] at h
      simp only [Option.some.injEq] at h
      subst h
      exact ⟨analyze_session_sev (a :: t), rfl, rfl, rfl⟩

/-- Witness for the amended C4 on a connect-only session. -/
theorem classifier_event_invariant_witness :
    1 ≤ scanEvent.severity ∧ scanEvent.lat = none ∧ scanEvent.lon = none ∧
      scanEvent.country = some "N/A" :=
  classifier_event_invariant scanLogs scanEvent (by decide)

/-- C5: when the fetch raises a client error, any other error (network
errors land in the blanket handler), or the body fails to parse as JSON,
the iteration returns before any write: the snapshot content, the
resolver state and the filled count are unchanged. -/
theorem fetch_failure_no_write (env : DbFile) (s : GeoState) (snapshot : List Item) :
    sync_once env .clientError s snapshot = (snapshot, s, 0) ∧
    sync_once env .jsonDecodeError s snapshot = (snapshot, s, 0) ∧
    sync_once env .otherError s snapshot = (snapshot, s, 0) :=
  ⟨rfl, rfl, rfl⟩

/-- C10: when the fetch succeeds but the parsed JSON is an empty array,
JSON null, or a value that is neither an array nor an object, the
iteration performs no write: the snapshot is unchanged. -/
theorem empty_fetch_no_write (env : DbFile) (s : GeoState) (snapshot : List Item) :
    sync_once env (.ok (.arr [])) s snapshot = (snapshot, s, 0) ∧
    sync_once env (.ok .other) s snapshot = (snapshot, s, 0) ∧
    sync_once env (.ok .null) s snapshot = (snapshot, s, 0) :=
  ⟨rfl, rfl, rfl⟩

/-! ## Lemmas about the geo resolver -/

/-- Acquiring the reader never touches the lookup cache. -/
theorem get_geoip_reader_cache (env : DbFile) (s : GeoState) :
    (get_geoip_reader env s).2.cache = s.cache := by
  unfold get_geoip_reader
  cases s.reader with
  | some r => rfl
  | none => cases env <;> rfl

/-- Acquiring the reader performs no database query. -/
theorem get_geoip_reader_queries (env : DbFile) (s : GeoState) :
    (get_geoip_reader env s).2.queries = s.queries := by
  unfold get_geoip_reader
  cases s.reader with
  | some r => rfl
  | none => cases env <;> rfl

/-- With no reader loaded, acquiring one always probes the file once,
whatever the file's state. -/
theorem get_geoip_reader_probe (env : DbFile) (s : GeoState) (h : s.reader = none) :
    (get_geoip_reader env s).2.probes = s.probes + 1 := by
  unfold get_geoip_reader
  rw [h]
  cases env <;> rfl

/-- The wrapped lookup body never touches the cache. -/
theorem uncachedLookup_cache (env : DbFile) (s : GeoState) (ip : String) :
    (uncachedLookup env s ip).2.cache = s.cache :=
  get_geoip_reader_cache env s

/-- The wrapped lookup body keeps the probe count of the reader
acquisition. -/
theorem uncachedLookup_probes (env : DbFile) (s : GeoState) (ip : String) :
    (uncachedLookup env s ip).2.probes = (get_geoip_reader env s).2.probes := rfl

/-- The wrapped lookup body performs at most one database query. -/
theorem uncachedLookup_queries_le (env : DbFile) (s : GeoState) (ip : String) :
    (uncachedLookup env s ip).2.queries ≤ s.queries + 1 := by
  show (get_geoip_reader env s).2.queries +
      (if (readerBody (get_geoip_reader env s).1 ip).2 then 1 else 0) ≤ s.queries + 1
  rw [get_geoip_reader_queries env s]
  split <;> omega

/-- A cache hit on the key just inserted at the front. -/
theorem cacheGet_cons_self (c : List (String × Option LocResult)) (ip : String)
    (v : Option LocResult) : cacheGet ((ip, v) :: c) ip = some v := by
  unfold cacheGet
  rw [List.find?_cons_of_pos]
  · rfl
  · exact beq_self_eq_true ip

/-- Cached values come from cache entries. -/
theorem cacheGet_none_entry (c : List (String × Option LocResult)) (ip : String)
    (v : Option LocResult) (hall : ∀ p ∈ c, p.2 = (none : Option LocResult))
    (h : cacheGet c ip = some v) : v = none := by
  unfold cacheGet at h
  cases hf : c.find? (fun p => p.1 == ip) with
  | none => rw [hf] at h; exact Option.noConfusion h
  | some p =>
    rw [hf] at h
    simp only [Option.map_some', Option.some.injEq] at h
    rw [← h]
    exact hall p (List.mem_of_find?_eq_some hf)

/-- Behaviour of `_get_location_for_ip` on a cache hit. -/
theorem get_location_hit (env : DbFile) (s : GeoState) (ip : String)
    (v : Option LocResult) (h : cacheGet s.cache ip = some v) :
    get_location_for_ip env s ip =
      (v, { s with cache := (ip, v) :: s.cache.filter fun p => !(p.1 == ip) }) := by
  unfold get_location_for_ip
  rw [h]

/-- Behaviour of `_get_location_for_ip` on a cache miss. -/
theorem get_location_miss (env : DbFile) (s : GeoState) (ip : String)
    (h : cacheGet s.cache ip = none) :
    get_location_for_ip env s ip =
      ((uncachedLookup env s ip).1,
        { (uncachedLookup env s ip).2 with
          cache := ((ip, (uncachedLookup env s ip).1) ::
            (uncachedLookup env s ip).2.cache).take CACHE_MAX }) := by
  unfold get_location_for_ip
  rw [h]

/-- After any resolution the resolved IP sits in the cache with the value
just returned. -/
theorem get_location_cache_head (env : DbFile) (s : GeoState) (ip : String) :
    cacheGet (get_location_for_ip env s ip).2.cache ip =
      some (get_location_for_ip env s ip).1 := by
  cases hc : cacheGet s.cache ip with
  | some v => rw [get_location_hit env s ip v hc]; exact cacheGet_cons_self _ ip v
  | none =>
    rw [get_location_miss env s ip hc]
    show cacheGet (((ip, (uncachedLookup env s ip).1) ::
      (uncachedLookup env s ip).2.cache).take CACHE_MAX) ip = _
    have h1 : CACHE_MAX = 4095 + 1 := rfl
    rw [h1, List.take_succ_cons]
    exact cacheGet_cons_self _ ip _

/-- One resolution performs at most one database query. -/
theorem get_location_queries_le (env : DbFile) (s : GeoState) (ip : String) :
    (get_location_for_ip env s ip).2.queries ≤ s.queries + 1 := by
  cases hc : cacheGet s.cache ip with
  | some v => rw [get_location_hit env s ip v hc]; exact Nat.le_succ s.queries
  | none => rw [get_location_miss env s ip hc]; exact uncachedLookup_queries_le env s ip

/-- A cache hit performs no database query at all. -/
theorem get_location_hit_queries (env : DbFile) (s : GeoState) (ip : String)
    (v : Option LocResult) (h : cacheGet s.cache ip = some v) :
    (get_location_for_ip env s ip).2.queries = s.queries := by
  rw [get_location_hit env s ip v h]

/-! ## Claim theorems: geo resolver -/

/-- C8: resolving the same IP twice in succession is idempotent — the
second call returns the same result as the first, and across the two
calls at most one database query is performed (the second call is served
from the cache). -/
theorem resolver_idempotent (env : DbFile) (s : GeoState) (ip : String) :
    (get_location_for_ip env (get_location_for_ip env s ip).2 ip).1 =
      (get_location_for_ip env s ip).1 ∧
    (get_location_for_ip env (get_location_for_ip env s ip).2 ip).2.queries ≤
      s.queries + 1 := by
  have hh := get_location_cache_head env s ip
  constructor
  · rw [get_location_hit env _ ip _ hh]
  · rw [get_location_hit_queries env _ ip _ hh]
    exact get_location_queries_le env s ip

/-- C2 (counterexample): the degraded state is *not* entered exactly
once.  With the database file absent, the first resolution probes the
file (probe count 1) and returns the unknown result, but resolving a
second, different IP probes the file again (probe count 2) instead of
short-circuiting. -/
theorem degraded_state_reprobed :
    (get_location_for_ip .absent initGeoState "10.0.0.1").1 = none ∧
    (get_location_for_ip .absent initGeoState "10.0.0.1").2.probes = 1 ∧
    ((get_location_for_ip .absent
        ((get_location_for_ip .absent initGeoState "10.0.0.1").2)
        "10.0.0.2").2).probes = 2 :=
  ⟨rfl, rfl, rfl⟩

/-- C2 (amended): the failed-open state is never cached in the reader
slot, so the degraded state is re-entered per uncached lookup: while no
reader is loaded, every resolution of an IP absent from the per-IP cache
performs a fresh attempt to open the database file (probe count grows by
one), whereas resolving a cached IP performs no file probe at all. -/
theorem degraded_reprobe (env : DbFile) (s : GeoState) (ip : String) :
    ((cacheGet s.cache ip).isSome →
      (get_location_for_ip env s ip).2.probes = s.probes) ∧
    (cacheGet s.cache ip = none → s.reader = none →
      (get_location_for_ip env s ip).2.probes = s.probes + 1) := by
  constructor
  · intro h
    obtain ⟨v, hv⟩ := Option.isSome_iff_exists.mp h
    rw [get_location_hit env s ip v hv]
  · intro hc hr
    rw [get_location_miss env s ip hc]
    show (uncachedLookup env s ip).2.probes = s.probes + 1
    rw [uncachedLookup_probes env s ip]
    exact get_geoip_reader_probe env s hr

/-- Witness for the amended C2: a cached IP is resolved without probing,
while an uncached IP on a fresh state probes once. -/
theorem degraded_reprobe_witness :
    (get_location_for_ip .absent cachedState "10.0.0.1").2.probes =
      cachedState.probes ∧
    (get_location_for_ip .absent initGeoState "10.0.0.2").2.probes =
      initGeoState.probes + 1 :=
  ⟨(degraded_reprobe .absent cachedState "10.0.0.1").1 (by decide),
   (degraded_reprobe .absent initGeoState "10.0.0.2").2 (by decide) rfl⟩

/-! ## Degraded resolution (absent database file) -/

/-- With the database file absent and a degraded state, a resolution
returns `None` and the state stays degraded. -/
theorem degraded_get_location (s : GeoState) (ip : String) (h : Degraded s) :
    (get_location_for_ip .absent s ip).1 = none ∧
      Degraded (get_location_for_ip .absent s ip).2 := by
  obtain ⟨hr, hall⟩ := h
  cases hc : cacheGet s.cache ip with
  | some v =>
    have hv : v = none := cacheGet_none_entry s.cache ip v hall hc
    subst hv
    rw [get_location_hit .absent s ip none hc]
    refine ⟨rfl, hr, ?_⟩
    intro p hp
    rcases List.mem_cons.mp hp with h1 | h1
    · rw [h1]
    · exact hall p (List.mem_of_mem_filter h1)
  | none =>
    rw [get_location_miss .absent s ip hc]
    have hu : uncachedLookup .absent s ip = (none, { s with probes := s.probes + 1 }) := by
      unfold uncachedLookup get_geoip_reader
      rw [hr]
      rfl
    rw [hu]
    refine ⟨rfl, hr, ?_⟩
    intro p hp
    have hp2 := List.take_subset _ _ hp
    rcases List.mem_cons.mp hp2 with h1 | h1
    · rw [h1]
    · exact hall p h1

/-- The cache-warming pass keeps a degraded state degraded. -/
theorem degraded_warm (ips : List String) : ∀ s : GeoState, Degraded s →
    Degraded (warmPass .absent ips s) := by
  induction ips with
  | nil => intro s h; exact h
  | cons ip t ih =>
    intro s h
    exact ih _ (degraded_get_location s ip h).2

/-- With a degraded state, filling one needy record sets its country to
`"Unknown"` and changes nothing else about it. -/
theorem degraded_fill_item (s : GeoState) (it : Item) (h : Degraded s)
    (hn : needsEnrichment it = true) :
    fill_location_info .absent s it =
      ({ it with country := some "Unknown" },
        (get_location_for_ip .absent s (it.src_ip.getD "")).2) := by
  have ht : truthyStr it.src_ip = true := by
    unfold needsEnrichment at hn
    exact (Bool.and_eq_true _ _).mp hn |>.1
  unfold fill_location_info
  rw [if_pos ht, (degraded_get_location s (it.src_ip.getD "") h).1]
  rfl

/-- With a degraded state, the fill pass maps `degradedFill` over the
record list and leaves the state degraded. -/
theorem degraded_fillPass (items : List Item) : ∀ s : GeoState, Degraded s →
    (fillPass .absent items s).1 = items.map degradedFill ∧
      Degraded (fillPass .absent items s).2.1 := by
  induction items with
  | nil => intro s h; exact ⟨rfl, h⟩
  | cons it t ih =>
    intro s h
    by_cases hn : needsEnrichment it = true
    · have hfi := degraded_fill_item s it h hn
      have hs' := (degraded_get_location s (it.src_ip.getD "") h).2
      obtain ⟨ih1, ih2⟩ := ih _ hs'
      show (fillPass .absent (it :: t) s).1 = degradedFill it :: t.map degradedFill ∧ _
      unfold fillPass
      rw [if_pos hn, hfi]
      constructor
      · show ({ it with country := some "Unknown" } : Item) :: _ = _
        rw [ih1, degradedFill, if_pos hn]
      · exact ih2
    · have hn' : needsEnrichment it = false := by
        cases hne : needsEnrichment it
        · rfl
        · exact absurd hne hn
      obtain ⟨ih1, ih2⟩ := ih s h
      unfold fillPass
      rw [if_neg hn]
      constructor
      · show it :: (fillPass .absent t s).1 = _ :: _
        rw [ih1, degradedFill, if_neg hn]
      · exact ih2

/-! ## Claim theorems: sync iteration with an absent database -/

/-- C3 (counterexample): with the geo database file absent, a sync
iteration does modify a geographic field.  A fetched record with
placeholder country `"N/A"` is published with its `country` rewritten to
`"Unknown"`. -/
theorem geo_field_modified_when_db_absent :
    needyItem.country = some "N/A" ∧
    (sync_once .absent (.ok (.arr [needyItem])) initGeoState []).1 =
      [{ needyItem with country := some "Unknown" }] :=
  ⟨rfl, by decide⟩

/-- C3 (amended): with the geo database file absent and a degraded
resolver state, a sync iteration completes and publishes the fetched
records with `lat` and `lon` unchanged for every record; the `country`
field is rewritten to `"Unknown"` exactly on the records matching the
enrichment predicate (truthy source IP and missing geographic data), and
every other field of every record is published exactly as fetched. -/
theorem degraded_sync_publishes (items snapshot : List Item) (s : GeoState)
    (h : Degraded s) :
    (sync_once .absent (.ok (.arr items)) s snapshot).1 =
      if items.isEmpty then snapshot else items.map degradedFill := by
  cases items with
  | nil => rfl
  | cons a t =>
    have hw := degraded_warm (uniqueNeedyIps (a :: t)) s h
    show (fillPass .absent (a :: t)
        (warmPass .absent (uniqueNeedyIps (a :: t)) s)).1 = (a :: t).map degradedFill
    exact (degraded_fillPass (a :: t) _ hw).1

/-- Witness for the amended C3 on a one-record fetch from a fresh
state. -/
theorem degraded_sync_publishes_witness :
    (sync_once .absent (.ok (.arr [needyItem])) initGeoState []).1 =
      if ([needyItem] : List Item).isEmpty then ([] : List Item)
      else [needyItem].map degradedFill :=
  degraded_sync_publishes [needyItem] [] initGeoState
    ⟨rfl, by intro p hp; simp [initGeoState] at hp⟩
